import Mathlib

/-!
# Generated protocol-buffer bindings

A shallow embedding of the two generated Go files

* `tensorflow/contrib/go/proto/graph.pb.go` (package `tensorflow`):
  `GraphDef`, `NodeDef`, their methods and `fileDescriptor4`;
* `tensorflow/go/core/protobuf/for_core_protos_go_proto/critical_section.pb.go`
  (package `for_core_protos_go_proto`): `CriticalSectionDef`,
  `CriticalSectionExecutionDef`, their methods and
  `fileDescriptor_d30d8be90fd098b9`.

Conventions.  A Go pointer `*T` is an `Option T` (`none` is `nil`).  A method
with a pointer receiver takes the receiver and returns, inside
`Except GoPanic`, its result together with the receiver as the call leaves
it.  A slice is `Option (List α)` and a map is `Option (κ → Option ν)`, `none`
being the nil slice and the nil map.  `int32` is an `Int`, a `byte` a `Nat`.
-/

namespace Go

/-- Run-time failures of the Go statements used by the generated code. -/
inductive GoPanic where
  | nilDereference
  deriving DecidableEq, Repr

/-- A Go slice `[]α`; `none` is the nil slice. -/
abbrev Slice (α : Type) := Option (List α)

/-- The Go builtin `len` on a slice. -/
def Slice.len {α : Type} : Slice α → Nat
  | none => 0
  | some xs => xs.length

/-- The elements of a slice, as `append(b, s...)` takes them: a nil slice has none. -/
def Slice.toList {α : Type} : Slice α → List α
  | none => []
  | some xs => xs

/-- A Go map `map[κ]ν`; `none` is the nil map. -/
abbrev GoMap (κ ν : Type) := Option (κ → Option ν)

/-- The Go index expression `v, ok := m[k]` on a map (a nil map has no entry). -/
def GoMap.lookup {κ ν : Type} : GoMap κ ν → κ → Option ν
  | none, _ => none
  | some f, k => f k

/-- The Go pointer indirection `*m`: a nil pointer panics. -/
def deref {T : Type} : Option T → Except GoPanic T
  | none => .error .nilDereference
  | some r => .ok r

/-- The outcome of a call of a pointer-receiver method: the returned value and
the receiver after the call. -/
abbrev Call (T ρ : Type) := Except GoPanic (ρ × Option T)

/-- The value a call returns. -/
def Call.ret {T ρ : Type} (c : Call T ρ) : Except GoPanic ρ :=
  c.map Prod.fst

/-- The receiver as the call leaves it. -/
def Call.post {T ρ : Type} (c : Call T ρ) : Except GoPanic (Option T) :=
  c.map Prod.snd

/-- Sequencing: call `g` on the receiver left by `c`. -/
def Call.andThen {T ρ τ : Type} (c : Call T ρ) (g : Option T → Call T τ) : Call T τ :=
  match c with
  | .error e => .error e
  | .ok p => g p.2

end Go

open Go

/-! ## Package `tensorflow` (graph.pb.go) -/

namespace tensorflow

/-- Go struct `NodeDef`.  `AttrValue` is declared in another file of the
package and is a parameter here.  The default values are Go's zero values, so
`{}` is the composite literal `NodeDef{}`. -/
structure NodeDef (AttrValue : Type) where
  Name : String := ""
  Op : String := ""
  Input : Slice String := none
  Device : String := ""
  Attr : GoMap String (Option AttrValue) := none

/-- Go struct `GraphDef`.  `VersionDef`, `FunctionDefLibrary` and `AttrValue`
are declared in other files of the package and are parameters here.  The
default values are Go's zero values, so `{}` is `GraphDef{}`. -/
structure GraphDef (VersionDef FunctionDefLibrary AttrValue : Type) where
  Node : Slice (Option (NodeDef AttrValue)) := none
  Versions : Option VersionDef := none
  Version : Int := 0
  Library : Option FunctionDefLibrary := none

/-- The blob `fileDescriptor4`. -/
def fileDescriptor4 : List Nat := [
  0x1f, 0x8b, 0x08, 0x00, 0x00, 0x09, 0x6e, 0x88, 0x02, 0xff, 0x84, 0x91, 0xcf, 0x4e, 0xc2, 0x40,
  0x10, 0xc6, 0xb3, 0x2d, 0x05, 0x3a, 0x24, 0xc6, 0xac, 0x4a, 0x1a, 0xa2, 0x86, 0x90, 0x18, 0x51,
  0x93, 0x12, 0xf1, 0x42, 0xbc, 0x49, 0xfc, 0x73, 0x31, 0x84, 0xec, 0x81, 0xab, 0x29, 0xb0, 0xc5,
  0x06, 0xec, 0x36, 0xdb, 0x05, 0xc2, 0xd3, 0xf9, 0x26, 0x3e, 0x8b, 0xb3, 0xdb, 0x02, 0x3d, 0x48,
  0xbc, 0xcd, 0xce, 0xfc, 0xe6, 0xcb, 0x7c, 0xfb, 0xc1, 0x95, 0xe2, 0x71, 0x2a, 0x64, 0xb8, 0x10,
  0xeb, 0xce, 0x44, 0x48, 0xde, 0x09, 0x65, 0xf0, 0xc5, 0xd7, 0x42, 0xce, 0x3b, 0x33, 0x19, 0x24,
  0x9f, 0x7e, 0x22, 0x85, 0x12, 0x14, 0xf6, 0x58, 0xe3, 0xf6, 0xf0, 0x4a, 0xa0, 0x94, 0xfc, 0x58,
  0x05, 0x8b, 0x25, 0xcf, 0xf6, 0x1a, 0xed, 0xc3, 0x6c, 0xb8, 0x8c, 0x27, 0x2a, 0x12, 0xf1, 0xff,
  0xe4, 0x8a, 0xcb, 0x14, 0xc1, 0x34, 0x23, 0x5b, 0xdf, 0x04, 0xaa, 0x6f, 0xfa, 0xb6, 0x67, 0x1e,
  0xd2, 0x6b, 0x28, 0xc5, 0x62, 0xca, 0x3d, 0xd2, 0xb4, 0xdb, 0xb5, 0xee, 0x89, 0xbf, 0x57, 0xf1,
  0x07, 0xd8, 0x47, 0x84, 0x19, 0x80, 0x76, 0xa1, 0xba, 0xd5, 0xf1, 0x4a, 0x4d, 0x82, 0x70, 0xbd,
  0x08, 0x8f, 0xb2, 0x99, 0xe6, 0x77, 0x1c, 0x3d, 0x87, 0x4a, 0x5e, 0x7b, 0x36, 0xae, 0x38, 0x7d,
  0xcb, 0x23, 0x6c, 0xdb, 0xa2, 0x3d, 0xa8, 0x2c, 0xa2, 0xb1, 0x0c, 0xe4, 0xc6, 0xb3, 0x8c, 0xe0,
  0x65, 0x51, 0xf0, 0x35, 0xb7, 0x87, 0x8a, 0xef, 0x19, 0xc5, 0xb6, 0x78, 0xeb, 0x87, 0x40, 0x25,
  0xbf, 0x8e, 0x52, 0x34, 0x80, 0x46, 0xd1, 0x00, 0x69, 0xbb, 0xcc, 0xd4, 0xf4, 0x08, 0x2c, 0x91,
  0x18, 0x51, 0x97, 0x61, 0x45, 0x4f, 0xc1, 0x89, 0xe2, 0x64, 0xa9, 0xf0, 0x0a, 0x1b, 0x5b, 0xd9,
  0x83, 0xd6, 0xa1, 0x3c, 0xe5, 0xab, 0x68, 0xc2, 0x8d, 0x1f, 0x97, 0xe5, 0x2f, 0x7a, 0x0f, 0x25,
  0x9d, 0x83, 0xe7, 0x98, 0x2f, 0xb9, 0xf8, 0xe3, 0x4b, 0xfc, 0x27, 0x9c, 0xbf, 0xc4, 0x0a, 0x6f,
  0x32, 0x68, 0x63, 0x00, 0xee, 0xae, 0x45, 0x8f, 0xc1, 0x9e, 0xf3, 0x4d, 0x7e, 0x90, 0x2e, 0xe9,
  0x1d, 0x38, 0x26, 0xd4, 0xdc, 0xe7, 0x59, 0x51, 0x52, 0xef, 0x8d, 0xf4, 0x90, 0x65, 0xcc, 0xa3,
  0xd5, 0x23, 0xfd, 0x1b, 0xf0, 0x84, 0x9c, 0x15, 0xb1, 0x5d, 0x9a, 0xfd, 0x9a, 0xc9, 0x6e, 0xa8,
  0xa3, 0x4c, 0x87, 0x64, 0x5c, 0x36, 0xa1, 0x3e, 0xfc, 0x06, 0x00, 0x00, 0xff, 0xff, 0x96, 0xa5,
  0x75, 0xb8, 0x89, 0x02, 0x00, 0x00
]

variable {VersionDef FunctionDefLibrary AttrValue : Type}

/-- `func (m *GraphDef) Reset() { *m = GraphDef{} }` -/
def GraphDef.Reset (m : Option (GraphDef VersionDef FunctionDefLibrary AttrValue)) :
    Call (GraphDef VersionDef FunctionDefLibrary AttrValue) Unit :=
  match m with
  | none => .error .nilDereference
  | some _ => .ok ((), some {})

/-- `func (*GraphDef) ProtoMessage() {}` -/
def GraphDef.ProtoMessage (m : Option (GraphDef VersionDef FunctionDefLibrary AttrValue)) :
    Call (GraphDef VersionDef FunctionDefLibrary AttrValue) Unit :=
  .ok ((), m)

/-- `func (*GraphDef) Descriptor() ([]byte, []int) { return fileDescriptor4, []int{0} }` -/
def GraphDef.Descriptor (m : Option (GraphDef VersionDef FunctionDefLibrary AttrValue)) :
    Call (GraphDef VersionDef FunctionDefLibrary AttrValue) (List Nat × List Int) :=
  .ok ((fileDescriptor4, [0]), m)

/-- `func (m *GraphDef) GetNode() []*NodeDef` -/
def GraphDef.GetNode (m : Option (GraphDef VersionDef FunctionDefLibrary AttrValue)) :
    Call (GraphDef VersionDef FunctionDefLibrary AttrValue) (Slice (Option (NodeDef AttrValue))) :=
  match m with
  | some r => .ok (r.Node, m)
  | none => .ok (none, m)

/-- `func (m *GraphDef) GetVersions() *VersionDef` -/
def GraphDef.GetVersions (m : Option (GraphDef VersionDef FunctionDefLibrary AttrValue)) :
    Call (GraphDef VersionDef FunctionDefLibrary AttrValue) (Option VersionDef) :=
  match m with
  | some r => .ok (r.Versions, m)
  | none => .ok (none, m)

/-- `func (m *GraphDef) GetLibrary() *FunctionDefLibrary` -/
def GraphDef.GetLibrary (m : Option (GraphDef VersionDef FunctionDefLibrary AttrValue)) :
    Call (GraphDef VersionDef FunctionDefLibrary AttrValue) (Option FunctionDefLibrary) :=
  match m with
  | some r => .ok (r.Library, m)
  | none => .ok (none, m)

/-- `func (m *NodeDef) Reset() { *m = NodeDef{} }` -/
def NodeDef.Reset (m : Option (NodeDef AttrValue)) : Call (NodeDef AttrValue) Unit :=
  match m with
  | none => .error .nilDereference
  | some _ => .ok ((), some {})

/-- `func (*NodeDef) ProtoMessage() {}` -/
def NodeDef.ProtoMessage (m : Option (NodeDef AttrValue)) : Call (NodeDef AttrValue) Unit :=
  .ok ((), m)

/-- `func (*NodeDef) Descriptor() ([]byte, []int) { return fileDescriptor4, []int{1} }` -/
def NodeDef.Descriptor (m : Option (NodeDef AttrValue)) :
    Call (NodeDef AttrValue) (List Nat × List Int) :=
  .ok ((fileDescriptor4, [1]), m)

/-- `func (m *NodeDef) GetAttr() map[string]*AttrValue` -/
def NodeDef.GetAttr (m : Option (NodeDef AttrValue)) :
    Call (NodeDef AttrValue) (GoMap String (Option AttrValue)) :=
  match m with
  | some r => .ok (r.Attr, m)
  | none => .ok (none, m)

/-- The selector expression `m.Version` on a `*GraphDef`: there is no getter
for this field, the selector dereferences `m`. -/
def GraphDef.selVersion (m : Option (GraphDef VersionDef FunctionDefLibrary AttrValue)) :
    Except GoPanic Int :=
  (deref m).map fun r => r.Version

/-- The selector expression `m.Name` on a `*NodeDef`. -/
def NodeDef.selName (m : Option (NodeDef AttrValue)) : Except GoPanic String :=
  (deref m).map fun r => r.Name

/-- The selector expression `m.Op` on a `*NodeDef`. -/
def NodeDef.selOp (m : Option (NodeDef AttrValue)) : Except GoPanic String :=
  (deref m).map fun r => r.Op

/-- The selector expression `m.Input` on a `*NodeDef`. -/
def NodeDef.selInput (m : Option (NodeDef AttrValue)) : Except GoPanic (Slice String) :=
  (deref m).map fun r => r.Input

/-- The selector expression `m.Device` on a `*NodeDef`. -/
def NodeDef.selDevice (m : Option (NodeDef AttrValue)) : Except GoPanic String :=
  (deref m).map fun r => r.Device

end tensorflow

/-! ## Package `for_core_protos_go_proto` (critical_section.pb.go) -/

namespace for_core_protos_go_proto

/-- Go struct `CriticalSectionDef`; `{}` is `CriticalSectionDef{}`. -/
structure CriticalSectionDef where
  CriticalSectionName : String := ""
  XXX_NoUnkeyedLiteral : Unit := ()
  XXX_unrecognized : Slice Nat := none
  XXX_sizecache : Int := 0

/-- Go struct `CriticalSectionExecutionDef`; `{}` is
`CriticalSectionExecutionDef{}`. -/
structure CriticalSectionExecutionDef where
  ExecuteInCriticalSectionName : String := ""
  ExclusiveResourceAccess : Bool := false
  XXX_NoUnkeyedLiteral : Unit := ()
  XXX_unrecognized : Slice Nat := none
  XXX_sizecache : Int := 0

/-- The blob `fileDescriptor_d30d8be90fd098b9`. -/
def fileDescriptor_d30d8be90fd098b9 : List Nat := [
  0x1f, 0x8b, 0x08, 0x00, 0x00, 0x00, 0x00, 0x00, 0x02, 0xff, 0x7c, 0x51, 0xbd, 0x4e, 0xc3, 0x30,
  0x10, 0x96, 0x19, 0x10, 0x78, 0x0c, 0xaa, 0x08, 0x82, 0x21, 0xea, 0xd4, 0x29, 0x91, 0x60, 0x63,
  0xa3, 0x05, 0x04, 0x0b, 0xaa, 0x82, 0x58, 0x58, 0xac, 0xe4, 0x74, 0x0e, 0x16, 0x89, 0x0f, 0x9d,
  0x6d, 0xda, 0x97, 0xe0, 0x21, 0x78, 0x4b, 0x46, 0x54, 0x37, 0x50, 0x08, 0xa8, 0xdb, 0xe7, 0xfb,
  0xfe, 0xa4, 0xcf, 0xb2, 0xf0, 0x68, 0x1d, 0xb1, 0x6e, 0x69, 0x51, 0x00, 0x31, 0x16, 0x2f, 0x4c,
  0x9e, 0xea, 0xa0, 0x0b, 0x60, 0xe3, 0x0d, 0x54, 0xad, 0x72, 0x08, 0xde, 0x90, 0xcd, 0x23, 0x93,
  0xc8, 0x8d, 0x61, 0x7c, 0x23, 0x93, 0x59, 0xaf, 0xba, 0x5f, 0x8b, 0x2e, 0x51, 0x27, 0xa7, 0x72,
  0x34, 0xf4, 0x2a, 0x5b, 0x75, 0x98, 0x8a, 0x4c, 0x4c, 0xf6, 0xcb, 0x03, 0xf8, 0x6d, 0xb9, 0xab,
  0x3a, 0x1c, 0xbf, 0x0b, 0x79, 0x3c, 0x88, 0xba, 0x5a, 0x22, 0x84, 0xaf, 0xcc, 0x6b, 0x99, 0x61,
  0x7c, 0xa3, 0x32, 0x56, 0x6d, 0x8b, 0x3f, 0xe9, 0x75, 0xb7, 0x76, 0xf6, 0xb7, 0x27, 0x39, 0x97,
  0x47, 0xb8, 0x84, 0x36, 0x38, 0xf3, 0x8a, 0x8a, 0xd1, 0x51, 0x60, 0x40, 0x55, 0x01, 0xa0, 0x73,
  0xe9, 0x4e, 0x26, 0x26, 0x7b, 0xe5, 0xe1, 0xb7, 0xa0, 0xec, 0xf9, 0x8b, 0x48, 0x4f, 0xdf, 0x84,
  0x4c, 0x89, 0x9b, 0x7c, 0x33, 0x40, 0xae, 0xb9, 0xea, 0x70, 0x41, 0xfc, 0x3c, 0x1d, 0x0d, 0xda,
  0xe6, 0xab, 0xb1, 0xdc, 0x5c, 0x3c, 0x3e, 0x34, 0xc6, 0x3f, 0x85, 0x3a, 0x07, 0xea, 0x7e, 0x6e,
  0xfd, 0x3f, 0x6c, 0x68, 0xf0, 0x09, 0x9a, 0x58, 0xad, 0x2e, 0x2a, 0x5e, 0x9c, 0x6a, 0x68, 0x8d,
  0x3e, 0x84, 0xa8, 0x77, 0x23, 0x3a, 0xfb, 0x0c, 0x00, 0x00, 0xff, 0xff, 0xfa, 0xdf, 0x90, 0x13,
  0xc3, 0x01, 0x00, 0x00
]

/-- `func (m *CriticalSectionDef) Reset() { *m = CriticalSectionDef{} }` -/
def CriticalSectionDef.Reset (m : Option CriticalSectionDef) : Call CriticalSectionDef Unit :=
  match m with
  | none => .error .nilDereference
  | some _ => .ok ((), some {})

/-- `func (*CriticalSectionDef) ProtoMessage() {}` -/
def CriticalSectionDef.ProtoMessage (m : Option CriticalSectionDef) :
    Call CriticalSectionDef Unit :=
  .ok ((), m)

/-- `func (*CriticalSectionDef) Descriptor() ([]byte, []int)` -/
def CriticalSectionDef.Descriptor (m : Option CriticalSectionDef) :
    Call CriticalSectionDef (List Nat × List Int) :=
  .ok ((fileDescriptor_d30d8be90fd098b9, [0]), m)

/-- `func (m *CriticalSectionDef) GetCriticalSectionName() string` -/
def CriticalSectionDef.GetCriticalSectionName (m : Option CriticalSectionDef) :
    Call CriticalSectionDef String :=
  match m with
  | some r => .ok (r.CriticalSectionName, m)
  | none => .ok ("", m)

/-- `func (m *CriticalSectionExecutionDef) Reset()` -/
def CriticalSectionExecutionDef.Reset (m : Option CriticalSectionExecutionDef) :
    Call CriticalSectionExecutionDef Unit :=
  match m with
  | none => .error .nilDereference
  | some _ => .ok ((), some {})

/-- `func (*CriticalSectionExecutionDef) ProtoMessage() {}` -/
def CriticalSectionExecutionDef.ProtoMessage (m : Option CriticalSectionExecutionDef) :
    Call CriticalSectionExecutionDef Unit :=
  .ok ((), m)

/-- `func (*CriticalSectionExecutionDef) Descriptor() ([]byte, []int)` -/
def CriticalSectionExecutionDef.Descriptor (m : Option CriticalSectionExecutionDef) :
    Call CriticalSectionExecutionDef (List Nat × List Int) :=
  .ok ((fileDescriptor_d30d8be90fd098b9, [1]), m)

/-- `func (m *CriticalSectionExecutionDef) GetExecuteInCriticalSectionName() string` -/
def CriticalSectionExecutionDef.GetExecuteInCriticalSectionName
    (m : Option CriticalSectionExecutionDef) : Call CriticalSectionExecutionDef String :=
  match m with
  | some r => .ok (r.ExecuteInCriticalSectionName, m)
  | none => .ok ("", m)

/-- `func (m *CriticalSectionExecutionDef) GetExclusiveResourceAccess() bool` -/
def CriticalSectionExecutionDef.GetExclusiveResourceAccess
    (m : Option CriticalSectionExecutionDef) : Call CriticalSectionExecutionDef Bool :=
  match m with
  | some r => .ok (r.ExclusiveResourceAccess, m)
  | none => .ok (false, m)

end for_core_protos_go_proto

/-! ## Struct declarations, struct tags and method sets -/

namespace Go

/-- The Go types that occur in the struct declarations. -/
inductive GoType where
  | string
  | int32
  | bool
  | byte
  | emptyStruct
  | named (name : String)
  | ptr (elem : GoType)
  | slice (elem : GoType)
  | map (key val : GoType)
  deriving DecidableEq, Repr

/-- Whether the type is a Go map type. -/
def GoType.isMap : GoType → Bool
  | .map _ _ => true
  | _ => false

/-- One field of a struct declaration: its name, its type and the
`key:"value"` pairs of its struct tag, in the order they are written. -/
structure StructField where
  name : String
  type : GoType
  tag : List (String × String)
  deriving DecidableEq, Repr

/-- The value of `key` in the struct tag of the field, as `reflect.StructTag.Lookup`. -/
def StructField.tagGet (f : StructField) (key : String) : Option String :=
  f.tag.lookup key

/-- The items of a comma-separated list. -/
def splitOnComma : List Char → List (List Char)
  | [] => [[]]
  | c :: cs =>
    if c = ',' then [] :: splitOnComma cs
    else
      match splitOnComma cs with
      | [] => [[c]]
      | h :: t => (c :: h) :: t

/-- Reads the decimal digits `cs` after the value `acc` read so far. -/
def digitsToNat : List Char → Nat → Option Nat
  | [], acc => some acc
  | c :: cs, acc =>
    if c.isDigit then digitsToNat cs (10 * acc + (c.toNat - '0'.toNat)) else none

/-- A non-empty decimal numeral. -/
def atoi (cs : List Char) : Option Nat :=
  if cs = [] then none else digitsToNat cs 0

/-- When `item` starts with `lead`, what follows `lead`. -/
def stripLeading : List Char → List Char → Option (List Char)
  | [], item => some item
  | _ :: _, [] => none
  | l :: ls, c :: cs => if l = c then stripLeading ls cs else none

/-- What a `protobuf:"..."` struct tag declares about a field: the wire type,
the field number, the label, the name in the `.proto` file, the JSON name and
the `proto3` marker. -/
structure Properties where
  Wire : String
  Tag : Nat
  Required : Bool := false
  Optional : Bool := false
  Repeated : Bool := false
  OrigName : String := ""
  JSONName : String := ""
  proto3 : Bool := false
  deriving DecidableEq, Repr

/-- Records one item of the tag that follows the wire type and the number. -/
def Properties.setItem (p : Properties) (item : List Char) : Properties :=
  if item = "req".toList then { p with Required := true }
  else if item = "opt".toList then { p with Optional := true }
  else if item = "rep".toList then { p with Repeated := true }
  else if item = "proto3".toList then { p with proto3 := true }
  else
    match stripLeading "name=".toList item with
    | some rest => { p with OrigName := String.mk rest }
    | none =>
      match stripLeading "json=".toList item with
      | some rest => { p with JSONName := String.mk rest }
      | none => p

/-- Reads a tag value `wire,number,label,name=...[,json=...][,proto3]`. -/
def parseTag (s : String) : Option Properties :=
  match splitOnComma s.toList with
  | wire :: num :: rest =>
    match atoi num with
    | some n => some (rest.foldl Properties.setItem { Wire := String.mk wire, Tag := n })
    | none => none
  | _ => none

/-- What the tag `key` of the field declares, when the field has that tag. -/
def StructField.props (f : StructField) (key : String) : Option Properties :=
  (f.tagGet key).bind parseTag

/-- The schema a struct declares: its fields that carry a `protobuf` tag, in
declaration order, each with what the tag declares. -/
def schema (fs : List StructField) : List (StructField × Properties) :=
  fs.filterMap fun f => (f.props "protobuf").map fun p => (f, p)

/-- The field numbers of the schema a struct declares. -/
def schemaNumbers (fs : List StructField) : List Nat :=
  (schema fs).map fun x => x.2.Tag

/-- Whether the method set has the getter `Get<field name>` of the field. -/
def hasGetter (methods : List String) (f : StructField) : Bool :=
  methods.contains ("Get" ++ f.name)

end Go

namespace tensorflow

/-- The declaration `type GraphDef struct`. -/
def GraphDef.fields : List StructField := [
  ⟨"Node", .slice (.ptr (.named "NodeDef")),
    [("protobuf", "bytes,1,rep,name=node"), ("json", "node,omitempty")]⟩,
  ⟨"Versions", .ptr (.named "VersionDef"),
    [("protobuf", "bytes,4,opt,name=versions"), ("json", "versions,omitempty")]⟩,
  ⟨"Version", .int32,
    [("protobuf", "varint,3,opt,name=version"), ("json", "version,omitempty")]⟩,
  ⟨"Library", .ptr (.named "FunctionDefLibrary"),
    [("protobuf", "bytes,2,opt,name=library"), ("json", "library,omitempty")]⟩
]

/-- The methods declared on `*GraphDef`. -/
def GraphDef.methods : List String :=
  ["Reset", "String", "ProtoMessage", "Descriptor", "GetNode", "GetVersions", "GetLibrary"]

/-- The declaration `type NodeDef struct`. -/
def NodeDef.fields : List StructField := [
  ⟨"Name", .string, [("protobuf", "bytes,1,opt,name=name"), ("json", "name,omitempty")]⟩,
  ⟨"Op", .string, [("protobuf", "bytes,2,opt,name=op"), ("json", "op,omitempty")]⟩,
  ⟨"Input", .slice .string,
    [("protobuf", "bytes,3,rep,name=input"), ("json", "input,omitempty")]⟩,
  ⟨"Device", .string,
    [("protobuf", "bytes,4,opt,name=device"), ("json", "device,omitempty")]⟩,
  ⟨"Attr", .map .string (.ptr (.named "AttrValue")),
    [("protobuf", "bytes,5,rep,name=attr"), ("json", "attr,omitempty"),
     ("protobuf_key", "bytes,1,opt,name=key"), ("protobuf_val", "bytes,2,opt,name=value")]⟩
]

/-- The methods declared on `*NodeDef`. -/
def NodeDef.methods : List String :=
  ["Reset", "String", "ProtoMessage", "Descriptor", "GetAttr"]

end tensorflow

namespace for_core_protos_go_proto

/-- The declaration `type CriticalSectionDef struct`. -/
def CriticalSectionDef.fields : List StructField := [
  ⟨"CriticalSectionName", .string,
    [("protobuf", "bytes,1,opt,name=critical_section_name,json=criticalSectionName,proto3"),
     ("json", "critical_section_name,omitempty")]⟩,
  ⟨"XXX_NoUnkeyedLiteral", .emptyStruct, [("json", "-")]⟩,
  ⟨"XXX_unrecognized", .slice .byte, [("json", "-")]⟩,
  ⟨"XXX_sizecache", .int32, [("json", "-")]⟩
]

/-- The methods declared on `*CriticalSectionDef`. -/
def CriticalSectionDef.methods : List String :=
  ["Reset", "String", "ProtoMessage", "Descriptor", "XXX_Unmarshal", "XXX_Marshal",
   "XXX_Merge", "XXX_Size", "XXX_DiscardUnknown", "GetCriticalSectionName"]

/-- The declaration `type CriticalSectionExecutionDef struct`. -/
def CriticalSectionExecutionDef.fields : List StructField := [
  ⟨"ExecuteInCriticalSectionName", .string,
    [("protobuf",
      "bytes,1,opt,name=execute_in_critical_section_name,json=executeInCriticalSectionName,proto3"),
     ("json", "execute_in_critical_section_name,omitempty")]⟩,
  ⟨"ExclusiveResourceAccess", .bool,
    [("protobuf",
      "varint,2,opt,name=exclusive_resource_access,json=exclusiveResourceAccess,proto3"),
     ("json", "exclusive_resource_access,omitempty")]⟩,
  ⟨"XXX_NoUnkeyedLiteral", .emptyStruct, [("json", "-")]⟩,
  ⟨"XXX_unrecognized", .slice .byte, [("json", "-")]⟩,
  ⟨"XXX_sizecache", .int32, [("json", "-")]⟩
]

/-- The methods declared on `*CriticalSectionExecutionDef`. -/
def CriticalSectionExecutionDef.methods : List String :=
  ["Reset", "String", "ProtoMessage", "Descriptor", "XXX_Unmarshal", "XXX_Marshal",
   "XXX_Merge", "XXX_Size", "XXX_DiscardUnknown", "GetExecuteInCriticalSectionName",
   "GetExclusiveResourceAccess"]

end for_core_protos_go_proto

/-! ## The protobuf runtime used by `critical_section.pb.go`

`XXX_Unmarshal` and `XXX_Marshal` delegate to `proto.InternalMessageInfo`,
which is not part of the two files.  It is modelled here from sections 4.1 and
7 of the specification.  A byte is a `Nat` below 256. -/

namespace proto

/-- Modelled from the spec: the `DecodeError` subtypes `TruncatedInput`,
`MalformedVarint` and `WireTypeMismatch` of the decoder of the protobuf
runtime.  Content that the declared type cannot hold counts as
`WireTypeMismatch`. -/
inductive DecodeError where
  | TruncatedInput
  | MalformedVarint
  | WireTypeMismatch
  deriving DecidableEq, Repr

/-- Modelled from the spec: the failure of the encoder of the protobuf runtime.
A string and a boolean can always be represented, so the only failure left
for the two record types is an absent record. -/
inductive EncodeError where
  | ErrNil
  deriving DecidableEq, Repr

/-- Modelled from the spec: the value of one wire field of the protobuf
runtime, by wire type: varint (0), fixed 64-bit (1), length-delimited (2) and
fixed 32-bit (5). -/
inductive WireValue where
  | varint (v : Nat)
  | fixed64 (bs : List Nat)
  | bytes (bs : List Nat)
  | fixed32 (bs : List Nat)
  deriving DecidableEq, Repr

/-- Modelled from the spec: the wire type number the protobuf runtime puts in
the tag of a value. -/
def WireValue.wire : WireValue → Nat
  | .varint _ => 0
  | .fixed64 _ => 1
  | .bytes _ => 2
  | .fixed32 _ => 5

/-- Modelled from the spec: one (tag, value) pair as the decoder of the
protobuf runtime reads it: the field number, the value, and the raw tag and
value bytes as they stand in the input. -/
structure Field where
  num : Nat
  value : WireValue
  raw : List Nat
  deriving DecidableEq, Repr

/-- Modelled from the spec: the varint reader of the protobuf runtime.  Reads
at most `width` bytes, seven bits each, least significant group first; gives
the value, the bytes read and the rest.  `TruncatedInput` when the input ends
inside the varint, `MalformedVarint` when the continuation exceeds the
width. -/
def readVarint : (width : Nat) → List Nat → Except DecodeError (Nat × List Nat × List Nat)
  | 0, _ => .error .MalformedVarint
  | _ + 1, [] => .error .TruncatedInput
  | width + 1, b :: bs =>
    if b < 128 then .ok (b, [b], bs)
    else
      match readVarint width bs with
      | .error e => .error e
      | .ok (v, raw, rest) => .ok ((b - 128) + 128 * v, b :: raw, rest)

/-- Modelled from the spec: a 64-bit varint of the protobuf runtime, at most
ten bytes, the value reduced to 64 bits. -/
def decodeVarint (b : List Nat) : Except DecodeError (Nat × List Nat × List Nat) :=
  match readVarint 10 b with
  | .error e => .error e
  | .ok (v, raw, rest) => .ok (v % 2 ^ 64, raw, rest)

/-- Modelled from the spec: the varint writer of the protobuf runtime, seven
bits a byte, least significant group first, the top bit set on every byte
but the last. -/
def writeVarint : (width : Nat) → Nat → List Nat
  | 0, _ => []
  | width + 1, v => if v < 128 then [v] else (128 + v % 128) :: writeVarint width (v / 128)

/-- Modelled from the spec: the encoding of a 64-bit varint by the protobuf
runtime. -/
def encodeVarint (v : Nat) : List Nat :=
  writeVarint 10 v

/-- Modelled from the spec: the decoder of the protobuf runtime reading one
(tag, value) pair: the tag is a varint holding the field number and, in its
low three bits, the wire type, and the wire type decides how long the value
is.  Gives the field and the rest of the input. -/
def readField (b : List Nat) : Except DecodeError (Field × List Nat) :=
  match decodeVarint b with
  | .error e => .error e
  | .ok (key, tagRaw, rest) =>
    match key % 8 with
    | 0 =>
      match decodeVarint rest with
      | .error e => .error e
      | .ok (v, raw, rest1) => .ok (⟨key / 8, .varint v, tagRaw ++ raw⟩, rest1)
    | 1 =>
      if rest.length < 8 then .error .TruncatedInput
      else .ok (⟨key / 8, .fixed64 (rest.take 8), tagRaw ++ rest.take 8⟩, rest.drop 8)
    | 2 =>
      match decodeVarint rest with
      | .error e => .error e
      | .ok (n, raw, rest1) =>
        if rest1.length < n then .error .TruncatedInput
        else .ok (⟨key / 8, .bytes (rest1.take n), tagRaw ++ raw ++ rest1.take n⟩, rest1.drop n)
    | 5 =>
      if rest.length < 4 then .error .TruncatedInput
      else .ok (⟨key / 8, .fixed32 (rest.take 4), tagRaw ++ rest.take 4⟩, rest.drop 4)
    | _ => .error .WireTypeMismatch

/-- Modelled from the spec: the sequence of (tag, value) pairs the decoder of
the protobuf runtime reads from an input, at most `n` of them. -/
def readFields : (n : Nat) → List Nat → Except DecodeError (List Field)
  | _, [] => .ok []
  | 0, _ :: _ => .error .TruncatedInput
  | n + 1, b :: bs =>
    match readField (b :: bs) with
    | .error e => .error e
    | .ok (f, rest) =>
      match readFields n rest with
      | .error e => .error e
      | .ok fs => .ok (f :: fs)

/-- Modelled from the spec: the encoding of one field by the protobuf runtime:
the tag (field number and wire type), then the value, a length-delimited
value after its length. -/
def encodeField (num : Nat) (v : WireValue) : List Nat :=
  encodeVarint (num * 8 + v.wire) ++
    match v with
    | .varint x => encodeVarint x
    | .fixed64 bs => bs
    | .bytes bs => encodeVarint bs.length ++ bs
    | .fixed32 bs => bs

/-- Modelled from the spec: the encoding of a sequence of fields by the
protobuf runtime, one after the other. -/
def encodeFields : List (Nat × WireValue) → List Nat
  | [] => []
  | (num, v) :: fs => encodeField num v ++ encodeFields fs

/-- Modelled from the spec: a field the encoder of the protobuf runtime can
write: tag and varint value fit 64 bits, a fixed value has its width, a
length fits 64 bits, every byte is a byte. -/
def wellFormed (num : Nat) (v : WireValue) : Prop :=
  num * 8 + 7 < 2 ^ 64 ∧
    match v with
    | .varint x => x < 2 ^ 64
    | .fixed64 bs => bs.length = 8
    | .bytes bs => bs.length < 2 ^ 64
    | .fixed32 bs => bs.length = 4

/-- Modelled from the spec: whether a byte is a UTF-8 continuation byte, for
the string fields of the protobuf runtime. -/
def isCont (b : Nat) : Bool :=
  128 ≤ b && b < 192

/-- Modelled from the spec: the text held by the bytes of a string field of
the protobuf runtime (UTF-8, shortest form, no surrogates, at most U+10FFFF);
`none` when the bytes are no such text. -/
def utf8Decode : List Nat → Option (List Char)
  | [] => some []
  | b0 :: rest =>
    if b0 < 128 then (utf8Decode rest).map (Char.ofNat b0 :: ·)
    else if 194 ≤ b0 ∧ b0 < 224 then
      match rest with
      | b1 :: bs =>
        if isCont b1 then
          (utf8Decode bs).map (Char.ofNat ((b0 - 192) * 64 + (b1 - 128)) :: ·)
        else none
      | _ => none
    else if 224 ≤ b0 ∧ b0 < 240 then
      match rest with
      | b1 :: b2 :: bs =>
        let cp := (b0 - 224) * 4096 + (b1 - 128) * 64 + (b2 - 128)
        if isCont b1 ∧ isCont b2 ∧ 2048 ≤ cp ∧ ¬ (55296 ≤ cp ∧ cp < 57344) then
          (utf8Decode bs).map (Char.ofNat cp :: ·)
        else none
      | _ => none
    else if 240 ≤ b0 ∧ b0 < 245 then
      match rest with
      | b1 :: b2 :: b3 :: bs =>
        let cp := (b0 - 240) * 262144 + (b1 - 128) * 4096 + (b2 - 128) * 64 + (b3 - 128)
        if isCont b1 ∧ isCont b2 ∧ isCont b3 ∧ 65536 ≤ cp ∧ cp < 1114112 then
          (utf8Decode bs).map (Char.ofNat cp :: ·)
        else none
      | _ => none
    else none

/-- Modelled from the spec: the UTF-8 bytes of one character of a string field
of the protobuf runtime. -/
def utf8EncodeChar (c : Char) : List Nat :=
  let v := c.toNat
  if v < 128 then [v]
  else if v < 2048 then [192 + v / 64, 128 + v % 64]
  else if v < 65536 then [224 + v / 4096, 128 + v / 64 % 64, 128 + v % 64]
  else [240 + v / 262144, 128 + v / 4096 % 64, 128 + v / 64 % 64, 128 + v % 64]

/-- Modelled from the spec: the bytes of a string field of the protobuf
runtime. -/
def utf8Encode (s : String) : List Nat :=
  s.toList.flatMap utf8EncodeChar

/-- Modelled from the spec: the string a length-delimited value of the
protobuf runtime holds. -/
def stringOfBytes (bs : List Nat) : Option String :=
  (utf8Decode bs).map String.mk

/-- Modelled from the spec: `proto.InternalMessageInfo`, the codec table of
one record type in the protobuf runtime.  `setField` stores a field whose
number the schema has (`none` when it has not, an error when the value does
not fit the declared wire type); `encodeKnown` writes the populated fields in
ascending field number; the last two read and write the unknown field bag. -/
structure InternalMessageInfo (T : Type) where
  setField : T → Field → Option (Except DecodeError T)
  encodeKnown : T → List Nat
  getUnrecognized : T → Slice Nat
  setUnrecognized : T → Slice Nat → T

/-- Modelled from the spec: one turn of the decoder of the protobuf runtime,
storing through the receiver a field just read: a recognized number
overwrites its field, an unrecognized one has its raw tag and value bytes
appended to the unknown field bag. -/
def InternalMessageInfo.store {T : Type} (a : InternalMessageInfo T) (m : Option T)
    (f : Field) : Call T (Option DecodeError) :=
  match deref m with
  | .error p => .error p
  | .ok r =>
    match a.setField r f with
    | some (.ok r1) => .ok (none, some r1)
    | some (.error e) => .ok (some e, some r)
    | none =>
      .ok (none, some (a.setUnrecognized r (some (Slice.toList (a.getUnrecognized r) ++ f.raw))))

/-- Modelled from the spec: the loop of the decoder of the protobuf runtime:
read a (tag, value) pair, store it, go on with the rest; stop at the first
error.  `n` bounds the number of pairs. -/
def InternalMessageInfo.unmarshalLoop {T : Type} (a : InternalMessageInfo T) :
    (n : Nat) → Option T → List Nat → Call T (Option DecodeError)
  | _, m, [] => .ok (none, m)
  | 0, m, _ :: _ => .ok (some .TruncatedInput, m)
  | n + 1, m, b :: bs =>
    match readField (b :: bs) with
    | .error e => .ok (some e, m)
    | .ok (f, rest) =>
      match a.store m f with
      | .error p => .error p
      | .ok (some e, m1) => .ok (some e, m1)
      | .ok (none, m1) => a.unmarshalLoop n m1 rest

/-- Modelled from the spec: `proto.InternalMessageInfo.Unmarshal`, the decoder
of the protobuf runtime (`Decode` of section 4.1), decoding `b` into the
receiver.  Every pair takes at least one byte, so the length of `b` bounds
the number of pairs. -/
def InternalMessageInfo.Unmarshal {T : Type} (a : InternalMessageInfo T) (m : Option T)
    (b : List Nat) : Call T (Option DecodeError) :=
  a.unmarshalLoop b.length m b

/-- Modelled from the spec: `proto.InternalMessageInfo.Marshal`, the encoder
of the protobuf runtime (`Encode` of section 4.1): appends to `b` the known
fields and then, verbatim, the unknown field bag; the record is only read. -/
def InternalMessageInfo.Marshal {T : Type} (a : InternalMessageInfo T) (b : List Nat)
    (m : Option T) (_deterministic : Bool) : Call T (List Nat × Option EncodeError) :=
  match m with
  | none => .ok ((b, some .ErrNil), m)
  | some r => .ok ((b ++ a.encodeKnown r ++ Slice.toList (a.getUnrecognized r), none), m)

end proto

namespace for_core_protos_go_proto

open proto

/-- Modelled from the spec: the table of `CriticalSectionDef` behind
`var xxx_messageInfo_CriticalSectionDef proto.InternalMessageInfo`, which the
protobuf runtime builds from the struct tags: field 1 is a length-delimited
string, left out of the encoding when empty. -/
def xxx_messageInfo_CriticalSectionDef : InternalMessageInfo CriticalSectionDef where
  setField r f :=
    match f.num with
    | 1 =>
      match f.value with
      | .bytes bs =>
        match stringOfBytes bs with
        | some s => some (.ok { r with CriticalSectionName := s })
        | none => some (.error .WireTypeMismatch)
      | _ => some (.error .WireTypeMismatch)
    | _ => none
  encodeKnown r :=
    if r.CriticalSectionName = "" then []
    else encodeField 1 (.bytes (utf8Encode r.CriticalSectionName))
  getUnrecognized r := r.XXX_unrecognized
  setUnrecognized r s := { r with XXX_unrecognized := s }

/-- `func (m *CriticalSectionDef) XXX_Unmarshal(b []byte) error` -/
def CriticalSectionDef.XXX_Unmarshal (m : Option CriticalSectionDef) (b : List Nat) :
    Call CriticalSectionDef (Option DecodeError) :=
  xxx_messageInfo_CriticalSectionDef.Unmarshal m b

/-- `func (m *CriticalSectionDef) XXX_Marshal(b []byte, deterministic bool) ([]byte, error)` -/
def CriticalSectionDef.XXX_Marshal (m : Option CriticalSectionDef) (b : List Nat)
    (deterministic : Bool) : Call CriticalSectionDef (List Nat × Option EncodeError) :=
  xxx_messageInfo_CriticalSectionDef.Marshal b m deterministic

/-- Modelled from the spec: the table of `CriticalSectionExecutionDef` behind
`var xxx_messageInfo_CriticalSectionExecutionDef proto.InternalMessageInfo`,
which the protobuf runtime builds from the struct tags: field 1 is a
length-delimited string, field 2 a varint boolean, each left out of the
encoding when at its default. -/
def xxx_messageInfo_CriticalSectionExecutionDef :
    InternalMessageInfo CriticalSectionExecutionDef where
  setField r f :=
    match f.num with
    | 1 =>
      match f.value with
      | .bytes bs =>
        match stringOfBytes bs with
        | some s => some (.ok { r with ExecuteInCriticalSectionName := s })
        | none => some (.error .WireTypeMismatch)
      | _ => some (.error .WireTypeMismatch)
    | 2 =>
      match f.value with
      | .varint v => some (.ok { r with ExclusiveResourceAccess := decide (v ≠ 0) })
      | _ => some (.error .WireTypeMismatch)
    | _ => none
  encodeKnown r :=
    (if r.ExecuteInCriticalSectionName = "" then []
      else encodeField 1 (.bytes (utf8Encode r.ExecuteInCriticalSectionName))) ++
    (if r.ExclusiveResourceAccess then encodeField 2 (.varint 1) else [])
  getUnrecognized r := r.XXX_unrecognized
  setUnrecognized r s := { r with XXX_unrecognized := s }

/-- `func (m *CriticalSectionExecutionDef) XXX_Unmarshal(b []byte) error` -/
def CriticalSectionExecutionDef.XXX_Unmarshal (m : Option CriticalSectionExecutionDef)
    (b : List Nat) : Call CriticalSectionExecutionDef (Option DecodeError) :=
  xxx_messageInfo_CriticalSectionExecutionDef.Unmarshal m b

/-- `func (m *CriticalSectionExecutionDef) XXX_Marshal(b []byte, deterministic bool) ([]byte, error)` -/
def CriticalSectionExecutionDef.XXX_Marshal (m : Option CriticalSectionExecutionDef)
    (b : List Nat) (deterministic : Bool) :
    Call CriticalSectionExecutionDef (List Nat × Option EncodeError) :=
  xxx_messageInfo_CriticalSectionExecutionDef.Marshal b m deterministic

end for_core_protos_go_proto

namespace proto

/-- Modelled from the spec: the unknown bytes of an input of the decoder of the
protobuf runtime: the raw tag and value bytes, in input order, of the fields
whose number is none of the schema numbers `nums`. -/
def unknownBytes (nums : List Nat) (fs : List Field) : List Nat :=
  (fs.filter fun f => decide (f.num ∉ nums)).flatMap Field.raw

/-- Modelled from the spec: what the generic codec of the protobuf runtime
expects of a table with schema numbers `nums`: exactly the numbers outside
`nums` are unrecognized, storing a recognized field leaves the unknown field
bag alone, and writing the bag changes the bag only. -/
structure InternalMessageInfo.Lawful {T : Type} (a : InternalMessageInfo T)
    (nums : List Nat) : Prop where
  set_none : ∀ r f, a.setField r f = none ↔ f.num ∉ nums
  set_bag : ∀ r f r1, a.setField r f = some (.ok r1) → a.getUnrecognized r1 = a.getUnrecognized r
  get_set : ∀ r s, a.getUnrecognized (a.setUnrecognized r s) = s
  known_set : ∀ r s, a.encodeKnown (a.setUnrecognized r s) = a.encodeKnown r

end proto

/-! ## Theorems -/

/-! ### The wire format: what the decoder reads and what it keeps -/

namespace proto

theorem readVarint_raw (w : Nat) : ∀ (b : List Nat) (v : Nat) (raw rest : List Nat),
    readVarint w b = .ok (v, raw, rest) → raw ++ rest = b ∧ raw ≠ [] := by
  induction w with
  | zero => intro b v raw rest h; simp [readVarint] at h
  | succ w ih =>
    intro b v raw rest h
    cases b with
    | nil => simp [readVarint] at h
    | cons x xs =>
      unfold readVarint at h
      by_cases hx : x < 128
      · simp only [hx, if_true] at h
        injection h with h
        simp only [Prod.mk.injEq] at h
        obtain ⟨-, h2, h3⟩ := h
        subst h2 h3
        simp
      · simp only [hx, if_false] at h
        cases hr : readVarint w xs with
        | error e => rw [hr] at h; simp at h
        | ok p =>
          obtain ⟨v1, raw1, rest1⟩ := p
          rw [hr] at h
          injection h with h
          simp only [Prod.mk.injEq] at h
          obtain ⟨-, h2, h3⟩ := h
          subst h2 h3
          have := (ih xs v1 raw1 rest1 hr).1
          simp [this]

theorem decodeVarint_raw (b : List Nat) (v : Nat) (raw rest : List Nat)
    (h : decodeVarint b = .ok (v, raw, rest)) : raw ++ rest = b ∧ raw ≠ [] := by
  unfold decodeVarint at h
  cases hr : readVarint 10 b with
  | error e => rw [hr] at h; simp at h
  | ok p =>
    obtain ⟨v1, raw1, rest1⟩ := p
    rw [hr] at h
    injection h with h
    simp only [Prod.mk.injEq] at h
    obtain ⟨-, h2, h3⟩ := h
    subst h2 h3
    exact readVarint_raw 10 b v1 raw1 rest1 hr

end proto

namespace proto

theorem readField_raw (b : List Nat) (f : Field) (rest : List Nat)
    (h : readField b = .ok (f, rest)) : f.raw ++ rest = b ∧ f.raw ≠ [] := by
  unfold readField at h
  cases hk : decodeVarint b with
  | error e => rw [hk] at h; simp at h
  | ok p =>
    obtain ⟨key, tagRaw, r0⟩ := p
    rw [hk] at h
    obtain ⟨hb, hne⟩ := decodeVarint_raw b key tagRaw r0 hk
    simp only at h
    split at h
    · cases hv : decodeVarint r0 with
      | error e => rw [hv] at h; simp at h
      | ok q =>
        obtain ⟨v, raw, r1⟩ := q
        rw [hv] at h
        obtain ⟨hb1, -⟩ := decodeVarint_raw r0 v raw r1 hv
        injection h with h
        simp only [Prod.mk.injEq] at h
        obtain ⟨h1, h2⟩ := h
        subst h1 h2
        simp [hb1, hb, hne]
    · split at h
      · simp at h
      · injection h with h
        simp only [Prod.mk.injEq] at h
        obtain ⟨h1, h2⟩ := h
        subst h1 h2
        simp [hb, hne]
    · cases hv : decodeVarint r0 with
      | error e => rw [hv] at h; simp at h
      | ok q =>
        obtain ⟨n, raw, r1⟩ := q
        rw [hv] at h
        obtain ⟨hb1, -⟩ := decodeVarint_raw r0 n raw r1 hv
        simp only at h
        split at h
        · simp at h
        · injection h with h
          simp only [Prod.mk.injEq] at h
          obtain ⟨h1, h2⟩ := h
          subst h1 h2
          simp [hb1, hb, hne]
    · split at h
      · simp at h
      · injection h with h
        simp only [Prod.mk.injEq] at h
        obtain ⟨h1, h2⟩ := h
        subst h1 h2
        simp [hb, hne]
    · simp at h

theorem readVarint_writeVarint (w : Nat) : ∀ (v : Nat) (rest : List Nat), v < 128 ^ (w + 1) →
    readVarint (w + 1) (writeVarint (w + 1) v ++ rest) = .ok (v, writeVarint (w + 1) v, rest) := by
  induction w with
  | zero =>
    intro v rest hv
    have hv1 : v < 128 := by simpa using hv
    simp [writeVarint, readVarint, hv1]
  | succ w ih =>
    intro v rest hv
    by_cases hv1 : v < 128
    · simp [writeVarint, readVarint, hv1]
    · have hdiv : v / 128 < 128 ^ (w + 1) := by
        rw [Nat.div_lt_iff_lt_mul (by norm_num)]
        calc v < 128 ^ (w + 1 + 1) := hv
          _ = 128 ^ (w + 1) * 128 := by ring
      have hih := ih (v / 128) rest hdiv
      have hge : ¬ (128 + v % 128 < 128) := by omega
      have hval : 128 + v % 128 - 128 + 128 * (v / 128) = v := by omega
      rw [writeVarint]
      simp only [hv1, if_false, List.cons_append]
      rw [readVarint]
      simp only [hge, if_false]
      rw [hih]
      simp only [hval]

theorem decodeVarint_encodeVarint (v : Nat) (rest : List Nat) (hv : v < 2 ^ 64) :
    decodeVarint (encodeVarint v ++ rest) = .ok (v, encodeVarint v, rest) := by
  have h : v < 128 ^ (9 + 1) := lt_trans hv (by norm_num)
  unfold decodeVarint encodeVarint
  rw [readVarint_writeVarint 9 v rest h]
  simp only [Nat.mod_eq_of_lt hv]

theorem encodeVarint_ne_nil (v : Nat) : encodeVarint v ≠ [] := by
  unfold encodeVarint
  rw [writeVarint]
  split <;> simp

end proto

namespace proto

theorem readField_encodeField (num : Nat) (v : WireValue) (rest : List Nat)
    (h : wellFormed num v) :
    readField (encodeField num v ++ rest) = .ok (⟨num, v, encodeField num v⟩, rest) := by
  obtain ⟨hnum, hv⟩ := h
  cases v with
  | varint x =>
    have hx : x < 2 ^ 64 := hv
    have hkey : num * 8 + 0 < 2 ^ 64 := by omega
    have hm : (num * 8 + 0) % 8 = 0 := by omega
    have hd : (num * 8 + 0) / 8 = num := by omega
    simp only [encodeField, WireValue.wire, List.append_assoc]
    unfold readField
    rw [decodeVarint_encodeVarint _ _ hkey]
    simp only [hm, hd]
    rw [decodeVarint_encodeVarint _ _ hx]
  | fixed64 bs =>
    have hl : bs.length = 8 := hv
    have hkey : num * 8 + 1 < 2 ^ 64 := by omega
    have hm : (num * 8 + 1) % 8 = 1 := by omega
    have hd : (num * 8 + 1) / 8 = num := by omega
    simp only [encodeField, WireValue.wire, List.append_assoc]
    unfold readField
    rw [decodeVarint_encodeVarint _ _ hkey]
    simp only [hm, hd]
    have h1 : ¬ ((bs ++ rest).length < 8) := by simp [hl]
    have h2 : (bs ++ rest).take 8 = bs := by rw [← hl]; exact List.take_left bs rest
    have h3 : (bs ++ rest).drop 8 = rest := by rw [← hl]; exact List.drop_left bs rest
    simp only [h1, if_false, h2, h3]
  | bytes bs =>
    have hl : bs.length < 2 ^ 64 := hv
    have hkey : num * 8 + 2 < 2 ^ 64 := by omega
    have hm : (num * 8 + 2) % 8 = 2 := by omega
    have hd : (num * 8 + 2) / 8 = num := by omega
    simp only [encodeField, WireValue.wire, List.append_assoc]
    unfold readField
    rw [decodeVarint_encodeVarint _ _ hkey]
    simp only [hm, hd]
    rw [decodeVarint_encodeVarint _ _ hl]
    have h1 : ¬ ((bs ++ rest).length < bs.length) := by simp
    have h2 : (bs ++ rest).take bs.length = bs := List.take_left bs rest
    have h3 : (bs ++ rest).drop bs.length = rest := List.drop_left bs rest
    simp only [h1, if_false, h2, h3, List.append_assoc]
  | fixed32 bs =>
    have hl : bs.length = 4 := hv
    have hkey : num * 8 + 5 < 2 ^ 64 := by omega
    have hm : (num * 8 + 5) % 8 = 5 := by omega
    have hd : (num * 8 + 5) / 8 = num := by omega
    simp only [encodeField, WireValue.wire, List.append_assoc]
    unfold readField
    rw [decodeVarint_encodeVarint _ _ hkey]
    simp only [hm, hd]
    have h1 : ¬ ((bs ++ rest).length < 4) := by simp [hl]
    have h2 : (bs ++ rest).take 4 = bs := by rw [← hl]; exact List.take_left bs rest
    have h3 : (bs ++ rest).drop 4 = rest := by rw [← hl]; exact List.drop_left bs rest
    simp only [h1, if_false, h2, h3]

theorem encodeField_ne_nil (num : Nat) (v : WireValue) : encodeField num v ≠ [] := by
  unfold encodeField
  intro h
  exact encodeVarint_ne_nil _ (List.append_eq_nil.mp h).1

end proto

namespace proto

theorem unknownBytes_cons_unknown (nums : List Nat) (f : Field) (fs : List Field)
    (h : f.num ∉ nums) : unknownBytes nums (f :: fs) = f.raw ++ unknownBytes nums fs := by
  simp [unknownBytes, List.filter_cons, h]

theorem unknownBytes_cons_known (nums : List Nat) (f : Field) (fs : List Field)
    (h : f.num ∈ nums) : unknownBytes nums (f :: fs) = unknownBytes nums fs := by
  simp [unknownBytes, List.filter_cons, h]

theorem unmarshalLoop_bag {T : Type} (a : InternalMessageInfo T) (nums : List Nat)
    (hl : a.Lawful nums) : ∀ (n : Nat) (r0 : T) (b : List Nat) (r : T),
    a.unmarshalLoop n (some r0) b = .ok (none, some r) →
    ∃ fs, readFields n b = .ok fs ∧ fs.flatMap Field.raw = b ∧
      Slice.toList (a.getUnrecognized r)
        = Slice.toList (a.getUnrecognized r0) ++ unknownBytes nums fs := by
  intro n
  induction n with
  | zero =>
    intro r0 b r h
    cases b with
    | nil =>
      simp only [InternalMessageInfo.unmarshalLoop, Except.ok.injEq, Prod.mk.injEq,
        Option.some.injEq, true_and] at h
      subst h
      exact ⟨[], by simp [readFields], by simp, by simp [unknownBytes]⟩
    | cons x xs => simp [InternalMessageInfo.unmarshalLoop] at h
  | succ n ih =>
    intro r0 b r h
    cases b with
    | nil =>
      simp only [InternalMessageInfo.unmarshalLoop, Except.ok.injEq, Prod.mk.injEq,
        Option.some.injEq, true_and] at h
      subst h
      exact ⟨[], by simp [readFields], by simp, by simp [unknownBytes]⟩
    | cons x xs =>
      unfold InternalMessageInfo.unmarshalLoop at h
      cases hf : readField (x :: xs) with
      | error e => rw [hf] at h; simp at h
      | ok p =>
        obtain ⟨f, rest⟩ := p
        rw [hf] at h
        simp only [InternalMessageInfo.store, deref] at h
        obtain ⟨hraw, -⟩ := readField_raw _ _ _ hf
        cases hs : a.setField r0 f with
        | none =>
          rw [hs] at h
          simp only at h
          obtain ⟨fs, h1, h2, h3⟩ := ih _ _ _ h
          have hnum : f.num ∉ nums := (hl.set_none r0 f).mp hs
          refine ⟨f :: fs, ?_, ?_, ?_⟩
          · simp [readFields, hf, h1]
          · simp [h2, hraw]
          · rw [h3, hl.get_set, unknownBytes_cons_unknown nums f fs hnum]
            simp [Slice.toList]
        | some res =>
          rw [hs] at h
          cases res with
          | error e => simp at h
          | ok r1 =>
            simp only at h
            obtain ⟨fs, h1, h2, h3⟩ := ih _ _ _ h
            have hnum : f.num ∈ nums := by
              by_contra hc
              rw [(hl.set_none r0 f).mpr hc] at hs
              simp at hs
            refine ⟨f :: fs, ?_, ?_, ?_⟩
            · simp [readFields, hf, h1]
            · simp [h2, hraw]
            · rw [h3, hl.set_bag r0 f r1 hs, unknownBytes_cons_known nums f fs hnum]

theorem unmarshalLoop_succ {T : Type} (a : InternalMessageInfo T) (n : Nat) (m : Option T)
    (b : List Nat) (hb : b ≠ []) :
    a.unmarshalLoop (n + 1) m b =
      match readField b with
      | .error e => .ok (some e, m)
      | .ok (f, rest) =>
        match a.store m f with
        | .error p => .error p
        | .ok (some e, m1) => .ok (some e, m1)
        | .ok (none, m1) => a.unmarshalLoop n m1 rest := by
  cases b with
  | nil => exact absurd rfl hb
  | cons x xs => rw [InternalMessageInfo.unmarshalLoop]

theorem unmarshalLoop_unknown {T : Type} (a : InternalMessageInfo T) (nums : List Nat)
    (hl : a.Lawful nums) : ∀ (us : List (Nat × WireValue)) (n : Nat) (r0 : T),
    (∀ u ∈ us, u.1 ∉ nums ∧ wellFormed u.1 u.2) → (encodeFields us).length ≤ n →
    ∃ r, a.unmarshalLoop n (some r0) (encodeFields us) = .ok (none, some r) ∧
      Slice.toList (a.getUnrecognized r)
        = Slice.toList (a.getUnrecognized r0) ++ encodeFields us ∧
      a.encodeKnown r = a.encodeKnown r0 := by
  intro us
  induction us with
  | nil =>
    intro n r0 _ _
    refine ⟨r0, ?_, by simp [encodeFields], rfl⟩
    cases n <;> simp [encodeFields, InternalMessageInfo.unmarshalLoop]
  | cons u us ih =>
    intro n r0 hu hn
    obtain ⟨num, v⟩ := u
    have hu0 := hu (num, v) (List.mem_cons_self _ _)
    have hne : encodeField num v ≠ [] := encodeField_ne_nil num v
    have hlen : 0 < (encodeField num v).length := List.length_pos.mpr hne
    simp only [encodeFields, List.length_append] at hn ⊢
    obtain ⟨n1, rfl⟩ : ∃ n1, n = n1 + 1 := ⟨n - 1, by omega⟩
    have hne2 : encodeField num v ++ encodeFields us ≠ [] := by
      intro h; exact hne (List.append_eq_nil.mp h).1
    rw [unmarshalLoop_succ a n1 _ _ hne2, readField_encodeField num v _ hu0.2]
    have hs : a.setField r0 ⟨num, v, encodeField num v⟩ = none :=
      (hl.set_none r0 _).mpr hu0.1
    simp only [InternalMessageInfo.store, deref, hs]
    obtain ⟨r, h1, h2, h3⟩ := ih n1
      (a.setUnrecognized r0 (some (Slice.toList (a.getUnrecognized r0) ++ encodeField num v)))
      (fun u hmem => hu u (List.mem_cons_of_mem _ hmem)) (by omega)
    refine ⟨r, h1, ?_, ?_⟩
    · rw [h2, hl.get_set]; simp [Slice.toList]
    · rw [h3, hl.known_set]

end proto

namespace proto

theorem readField_shorter (b : List Nat) (f : Field) (rest : List Nat)
    (h : readField b = .ok (f, rest)) : rest.length < b.length := by
  obtain ⟨h1, h2⟩ := readField_raw b f rest h
  have h3 : 0 < f.raw.length := List.length_pos.mpr h2
  rw [← h1, List.length_append]
  omega

theorem unmarshalLoop_bound {T : Type} (a : InternalMessageInfo T) :
    ∀ (n k : Nat) (m : Option T) (b : List Nat), b.length ≤ n → b.length ≤ k →
    a.unmarshalLoop n m b = a.unmarshalLoop k m b := by
  intro n
  induction n with
  | zero =>
    intro k m b hn _
    have hb : b = [] := List.length_eq_zero.mp (Nat.le_zero.mp hn)
    subst hb
    cases k <;> simp [InternalMessageInfo.unmarshalLoop]
  | succ n ih =>
    intro k m b hn hk
    cases b with
    | nil => cases k <;> simp [InternalMessageInfo.unmarshalLoop]
    | cons x xs =>
      obtain ⟨k1, rfl⟩ : ∃ k1, k = k1 + 1 := ⟨k - 1, by simp at hk; omega⟩
      rw [unmarshalLoop_succ a n m _ (List.cons_ne_nil x xs),
        unmarshalLoop_succ a k1 m _ (List.cons_ne_nil x xs)]
      cases hf : readField (x :: xs) with
      | error e => rfl
      | ok p =>
        obtain ⟨f, rest⟩ := p
        have hlt := readField_shorter _ _ _ hf
        simp only
        cases hs : a.store m f with
        | error e => rfl
        | ok q =>
          obtain ⟨e, m1⟩ := q
          cases e with
          | some e => rfl
          | none => exact ih k1 m1 rest (by omega) (by omega)

end proto

namespace for_core_protos_go_proto

open proto

theorem lawful_CriticalSectionDef :
    xxx_messageInfo_CriticalSectionDef.Lawful (schemaNumbers CriticalSectionDef.fields) := by
  have hn : schemaNumbers CriticalSectionDef.fields = [1] := by decide
  rw [hn]
  refine ⟨?_, ?_, ?_, ?_⟩
  · intro r f
    simp only [xxx_messageInfo_CriticalSectionDef, List.mem_singleton]
    constructor
    · intro h h1
      rw [h1] at h
      simp only at h
      split at h
      · split at h <;> simp at h
      · simp at h
    · intro h
      split
      · rename_i heq; exact absurd heq h
      · rfl
  · intro r f r1 h
    simp only [xxx_messageInfo_CriticalSectionDef] at h ⊢
    split at h
    · split at h
      · split at h
        · simp only [Option.some.injEq, Except.ok.injEq] at h
          rw [← h]
        · simp at h
      · simp at h
    · simp at h
  · intro r s; rfl
  · intro r s; rfl

theorem lawful_CriticalSectionExecutionDef :
    xxx_messageInfo_CriticalSectionExecutionDef.Lawful
      (schemaNumbers CriticalSectionExecutionDef.fields) := by
  have hn : schemaNumbers CriticalSectionExecutionDef.fields = [1, 2] := by decide
  rw [hn]
  refine ⟨?_, ?_, ?_, ?_⟩
  · intro r f
    simp only [xxx_messageInfo_CriticalSectionExecutionDef, List.mem_cons, List.mem_singleton,
      List.mem_nil_iff, or_false, not_or]
    constructor
    · intro h
      refine ⟨?_, ?_⟩
      · intro h1
        rw [h1] at h
        simp only at h
        split at h
        · split at h <;> simp at h
        · simp at h
      · intro h1
        rw [h1] at h
        simp only at h
        split at h <;> simp at h
    · intro h
      split
      · rename_i heq; exact absurd heq h.1
      · rename_i heq; exact absurd heq h.2
      · rfl
  · intro r f r1 h
    simp only [xxx_messageInfo_CriticalSectionExecutionDef] at h ⊢
    split at h
    · split at h
      · split at h
        · simp only [Option.some.injEq, Except.ok.injEq] at h
          rw [← h]
        · simp at h
      · simp at h
    · split at h
      · simp only [Option.some.injEq, Except.ok.injEq] at h
        rw [← h]
      · simp at h
    · simp at h
  · intro r s; rfl
  · intro r s; rfl

end for_core_protos_go_proto

namespace proto

theorem unmarshal_then_marshal {T : Type} (a : InternalMessageInfo T) (nums : List Nat)
    (hl : a.Lawful nums) (r0 r : T) (b : List Nat)
    (h : a.Unmarshal (some r0) b = .ok (none, some r)) :
    ∃ fs, readFields b.length b = .ok fs ∧ fs.flatMap Field.raw = b ∧
      Slice.toList (a.getUnrecognized r)
        = Slice.toList (a.getUnrecognized r0) ++ unknownBytes nums fs ∧
      ∀ (buf : List Nat) (d : Bool), a.Marshal buf (some r) d
        = .ok ((buf ++ a.encodeKnown r
            ++ (Slice.toList (a.getUnrecognized r0) ++ unknownBytes nums fs), none), some r) := by
  obtain ⟨fs, h1, h2, h3⟩ := unmarshalLoop_bag a nums hl b.length r0 b r h
  exact ⟨fs, h1, h2, h3, fun buf d => by simp [InternalMessageInfo.Marshal, h3]⟩

theorem unmarshal_unknown_then_marshal {T : Type} (a : InternalMessageInfo T) (nums : List Nat)
    (hl : a.Lawful nums) (r0 : T) (us : List (Nat × WireValue))
    (hu : ∀ u ∈ us, u.1 ∉ nums ∧ wellFormed u.1 u.2) :
    ∃ r, a.Unmarshal (some r0) (encodeFields us) = .ok (none, some r) ∧
      ∀ (buf : List Nat) (d : Bool), a.Marshal buf (some r) d
        = .ok ((buf ++ a.encodeKnown r0
            ++ (Slice.toList (a.getUnrecognized r0) ++ encodeFields us), none), some r) := by
  obtain ⟨r, h1, h2, h3⟩ := unmarshalLoop_unknown a nums hl us _ r0 hu (le_refl _)
  exact ⟨r, h1, fun buf d => by simp [InternalMessageInfo.Marshal, h2, h3]⟩

end proto

/-! ### The claims -/

open tensorflow for_core_protos_go_proto

set_option maxRecDepth 100000

/-- C1: each generated getter, called on a nil receiver, returns without a
panic the zero value of its field: nil for `GetNode`, `GetVersions`,
`GetLibrary` and `GetAttr`, the empty string for `GetCriticalSectionName` and
`GetExecuteInCriticalSectionName`, false for `GetExclusiveResourceAccess`. -/
theorem getters_on_nil_receiver (V F A : Type) :
    GraphDef.GetNode (none : Option (GraphDef V F A)) = .ok (none, none) ∧
    GraphDef.GetVersions (none : Option (GraphDef V F A)) = .ok (none, none) ∧
    GraphDef.GetLibrary (none : Option (GraphDef V F A)) = .ok (none, none) ∧
    NodeDef.GetAttr (none : Option (NodeDef A)) = .ok (none, none) ∧
    CriticalSectionDef.GetCriticalSectionName none = .ok ("", none) ∧
    CriticalSectionExecutionDef.GetExecuteInCriticalSectionName none = .ok ("", none) ∧
    CriticalSectionExecutionDef.GetExclusiveResourceAccess none = .ok (false, none) :=
  ⟨rfl, rfl, rfl, rfl, rfl, rfl, rfl⟩

/-- C2: on a non-nil receiver each generated getter returns exactly the value
stored in its field and leaves the record as it was. -/
theorem getters_on_present_receiver (V F A : Type) (g : GraphDef V F A) (n : NodeDef A)
    (c : CriticalSectionDef) (e : CriticalSectionExecutionDef) :
    GraphDef.GetNode (some g) = .ok (g.Node, some g) ∧
    GraphDef.GetVersions (some g) = .ok (g.Versions, some g) ∧
    GraphDef.GetLibrary (some g) = .ok (g.Library, some g) ∧
    NodeDef.GetAttr (some n) = .ok (n.Attr, some n) ∧
    CriticalSectionDef.GetCriticalSectionName (some c) = .ok (c.CriticalSectionName, some c) ∧
    CriticalSectionExecutionDef.GetExecuteInCriticalSectionName (some e)
      = .ok (e.ExecuteInCriticalSectionName, some e) ∧
    CriticalSectionExecutionDef.GetExclusiveResourceAccess (some e)
      = .ok (e.ExclusiveResourceAccess, some e) :=
  ⟨rfl, rfl, rfl, rfl, rfl, rfl, rfl⟩

/-- C3: on a non-nil receiver, whatever it held, `Reset` succeeds and leaves
the zero record of its type; every field of that record is at its default;
and every getter called after `Reset` returns what it returns on a nil
receiver. -/
theorem reset_leaves_zero_record (V F A : Type) (g : GraphDef V F A) (n : NodeDef A)
    (c : CriticalSectionDef) (e : CriticalSectionExecutionDef) :
    (GraphDef.Reset (some g) = .ok ((), some {}) ∧
      NodeDef.Reset (some n) = .ok ((), some {}) ∧
      CriticalSectionDef.Reset (some c) = .ok ((), some {}) ∧
      CriticalSectionExecutionDef.Reset (some e) = .ok ((), some {})) ∧
    (Slice.len ({} : GraphDef V F A).Node = 0 ∧
      ({} : GraphDef V F A).Versions = none ∧
      ({} : GraphDef V F A).Version = 0 ∧
      ({} : GraphDef V F A).Library = none) ∧
    (({} : NodeDef A).Name = "" ∧
      ({} : NodeDef A).Op = "" ∧
      Slice.len ({} : NodeDef A).Input = 0 ∧
      ({} : NodeDef A).Device = "" ∧
      (∀ k : String, GoMap.lookup ({} : NodeDef A).Attr k = none)) ∧
    (({} : CriticalSectionDef).CriticalSectionName = "" ∧
      Slice.len ({} : CriticalSectionDef).XXX_unrecognized = 0 ∧
      ({} : CriticalSectionDef).XXX_sizecache = 0) ∧
    (({} : CriticalSectionExecutionDef).ExecuteInCriticalSectionName = "" ∧
      ({} : CriticalSectionExecutionDef).ExclusiveResourceAccess = false ∧
      Slice.len ({} : CriticalSectionExecutionDef).XXX_unrecognized = 0 ∧
      ({} : CriticalSectionExecutionDef).XXX_sizecache = 0) ∧
    (Call.ret (Call.andThen (GraphDef.Reset (some g)) GraphDef.GetNode)
        = Call.ret (GraphDef.GetNode (none : Option (GraphDef V F A))) ∧
      Call.ret (Call.andThen (GraphDef.Reset (some g)) GraphDef.GetVersions)
        = Call.ret (GraphDef.GetVersions (none : Option (GraphDef V F A))) ∧
      Call.ret (Call.andThen (GraphDef.Reset (some g)) GraphDef.GetLibrary)
        = Call.ret (GraphDef.GetLibrary (none : Option (GraphDef V F A))) ∧
      Call.ret (Call.andThen (NodeDef.Reset (some n)) NodeDef.GetAttr)
        = Call.ret (NodeDef.GetAttr (none : Option (NodeDef A))) ∧
      Call.ret (Call.andThen (CriticalSectionDef.Reset (some c))
          CriticalSectionDef.GetCriticalSectionName)
        = Call.ret (CriticalSectionDef.GetCriticalSectionName none) ∧
      Call.ret (Call.andThen (CriticalSectionExecutionDef.Reset (some e))
          CriticalSectionExecutionDef.GetExecuteInCriticalSectionName)
        = Call.ret (CriticalSectionExecutionDef.GetExecuteInCriticalSectionName none) ∧
      Call.ret (Call.andThen (CriticalSectionExecutionDef.Reset (some e))
          CriticalSectionExecutionDef.GetExclusiveResourceAccess)
        = Call.ret (CriticalSectionExecutionDef.GetExclusiveResourceAccess none)) :=
  ⟨⟨rfl, rfl, rfl, rfl⟩, ⟨rfl, rfl, rfl, rfl⟩, ⟨rfl, rfl, rfl, rfl, fun _ => rfl⟩,
    ⟨rfl, rfl, rfl⟩, ⟨rfl, rfl, rfl, rfl⟩, ⟨rfl, rfl, rfl, rfl, rfl, rfl, rfl⟩⟩

/-- C5 (as stated, refuted): `GraphDef` declares no field `XXX_unrecognized`
and no field of type `[]byte` at all, so it carries no unknown field bag. -/
theorem GraphDef_has_no_unknown_field_bag :
    ¬ (∃ f ∈ GraphDef.fields, f.name = "XXX_unrecognized" ∨ f.type = .slice .byte) := by
  decide

/-- C5 (amended): only `CriticalSectionDef` and `CriticalSectionExecutionDef`
carry an unknown field bag, the field `XXX_unrecognized []byte` outside the
schema; `GraphDef` and `NodeDef` declare no field of that name and no `[]byte`
field.  For the two types that carry it: whenever `XXX_Unmarshal` decodes an
input `b` into a record, `b` is the concatenation of the raw bytes of its
(tag, value) pairs, the bag holds what it held before followed by the raw
bytes of the pairs whose field number is not in the schema, and `XXX_Marshal`
of the decoded record writes the known fields and then exactly those bytes,
leaving the record as it is.  The bound on the number of pairs never cuts
decoding short.  Any sequence of well-formed fields with
unrecognized numbers does decode, and is written back byte for byte.  So do
the inputs `0a 02 63 73 78 2a`, `78 2a 0a 02 63 73` and
`0a 02 63 73 10 01 78 2a`, whose unknown field 15 is `78 2a`. -/
theorem unknown_field_bag_only_in_critical_section_types :
    ((⟨"XXX_unrecognized", .slice .byte, [("json", "-")]⟩ ∈ CriticalSectionDef.fields ∧
        ⟨"XXX_unrecognized", .slice .byte, [("json", "-")]⟩
          ∈ CriticalSectionExecutionDef.fields) ∧
      ("XXX_unrecognized" ∉ (schema CriticalSectionDef.fields).map (fun x => x.1.name) ∧
        "XXX_unrecognized"
          ∉ (schema CriticalSectionExecutionDef.fields).map (fun x => x.1.name)) ∧
      (GraphDef.fields.filter (fun f => f.name = "XXX_unrecognized" ∨ f.type = .slice .byte) = [] ∧
        NodeDef.fields.filter (fun f => f.name = "XXX_unrecognized" ∨ f.type = .slice .byte)
          = [])) ∧
    (∀ (r0 r : CriticalSectionDef) (b : List Nat),
      CriticalSectionDef.XXX_Unmarshal (some r0) b = .ok (none, some r) →
      ∃ fs, proto.readFields b.length b = .ok fs ∧ fs.flatMap proto.Field.raw = b ∧
        Slice.toList r.XXX_unrecognized = Slice.toList r0.XXX_unrecognized
          ++ proto.unknownBytes (schemaNumbers CriticalSectionDef.fields) fs ∧
        ∀ (buf : List Nat) (d : Bool), CriticalSectionDef.XXX_Marshal (some r) buf d
          = .ok ((buf ++ xxx_messageInfo_CriticalSectionDef.encodeKnown r
              ++ (Slice.toList r0.XXX_unrecognized
                ++ proto.unknownBytes (schemaNumbers CriticalSectionDef.fields) fs), none),
            some r)) ∧
    (∀ (r0 r : CriticalSectionExecutionDef) (b : List Nat),
      CriticalSectionExecutionDef.XXX_Unmarshal (some r0) b = .ok (none, some r) →
      ∃ fs, proto.readFields b.length b = .ok fs ∧ fs.flatMap proto.Field.raw = b ∧
        Slice.toList r.XXX_unrecognized = Slice.toList r0.XXX_unrecognized
          ++ proto.unknownBytes (schemaNumbers CriticalSectionExecutionDef.fields) fs ∧
        ∀ (buf : List Nat) (d : Bool), CriticalSectionExecutionDef.XXX_Marshal (some r) buf d
          = .ok ((buf ++ xxx_messageInfo_CriticalSectionExecutionDef.encodeKnown r
              ++ (Slice.toList r0.XXX_unrecognized
                ++ proto.unknownBytes (schemaNumbers CriticalSectionExecutionDef.fields) fs),
              none),
            some r)) ∧
    ((∀ (m : Option CriticalSectionDef) (b : List Nat) (n : Nat), b.length ≤ n →
        xxx_messageInfo_CriticalSectionDef.unmarshalLoop n m b
          = CriticalSectionDef.XXX_Unmarshal m b) ∧
      (∀ (m : Option CriticalSectionExecutionDef) (b : List Nat) (n : Nat), b.length ≤ n →
        xxx_messageInfo_CriticalSectionExecutionDef.unmarshalLoop n m b
          = CriticalSectionExecutionDef.XXX_Unmarshal m b)) ∧
    (∀ (r0 : CriticalSectionDef) (us : List (Nat × proto.WireValue)),
      (∀ u ∈ us, u.1 ∉ schemaNumbers CriticalSectionDef.fields ∧ proto.wellFormed u.1 u.2) →
      ∃ r, CriticalSectionDef.XXX_Unmarshal (some r0) (proto.encodeFields us)
          = .ok (none, some r) ∧
        ∀ (buf : List Nat) (d : Bool), CriticalSectionDef.XXX_Marshal (some r) buf d
          = .ok ((buf ++ xxx_messageInfo_CriticalSectionDef.encodeKnown r0
              ++ (Slice.toList r0.XXX_unrecognized ++ proto.encodeFields us), none),
            some r)) ∧
    (∀ (r0 : CriticalSectionExecutionDef) (us : List (Nat × proto.WireValue)),
      (∀ u ∈ us, u.1 ∉ schemaNumbers CriticalSectionExecutionDef.fields
          ∧ proto.wellFormed u.1 u.2) →
      ∃ r, CriticalSectionExecutionDef.XXX_Unmarshal (some r0) (proto.encodeFields us)
          = .ok (none, some r) ∧
        ∀ (buf : List Nat) (d : Bool), CriticalSectionExecutionDef.XXX_Marshal (some r) buf d
          = .ok ((buf ++ xxx_messageInfo_CriticalSectionExecutionDef.encodeKnown r0
              ++ (Slice.toList r0.XXX_unrecognized ++ proto.encodeFields us), none),
            some r)) ∧
    ((CriticalSectionDef.XXX_Unmarshal (some {}) [0x0a, 0x02, 0x63, 0x73, 0x78, 0x2a]
          = .ok (none, some { CriticalSectionName := "cs",
                              XXX_unrecognized := some [0x78, 0x2a] }) ∧
        CriticalSectionDef.XXX_Marshal
            (some { CriticalSectionName := "cs", XXX_unrecognized := some [0x78, 0x2a] })
            [] false
          = .ok (([0x0a, 0x02, 0x63, 0x73, 0x78, 0x2a], none),
              some { CriticalSectionName := "cs", XXX_unrecognized := some [0x78, 0x2a] })) ∧
      CriticalSectionDef.XXX_Unmarshal (some {}) [0x78, 0x2a, 0x0a, 0x02, 0x63, 0x73]
          = .ok (none, some { CriticalSectionName := "cs",
                              XXX_unrecognized := some [0x78, 0x2a] }) ∧
      (CriticalSectionExecutionDef.XXX_Unmarshal (some {})
            [0x0a, 0x02, 0x63, 0x73, 0x10, 0x01, 0x78, 0x2a]
          = .ok (none, some { ExecuteInCriticalSectionName := "cs",
                              ExclusiveResourceAccess := true,
                              XXX_unrecognized := some [0x78, 0x2a] }) ∧
        CriticalSectionExecutionDef.XXX_Marshal
            (some { ExecuteInCriticalSectionName := "cs", ExclusiveResourceAccess := true,
                    XXX_unrecognized := some [0x78, 0x2a] })
            [] false
          = .ok (([0x0a, 0x02, 0x63, 0x73, 0x10, 0x01, 0x78, 0x2a], none),
              some { ExecuteInCriticalSectionName := "cs", ExclusiveResourceAccess := true,
                     XXX_unrecognized := some [0x78, 0x2a] }))) := by
  refine ⟨by decide, ?_, ?_, ⟨?_, ?_⟩, ?_, ?_, ⟨⟨rfl, rfl⟩, rfl, ⟨rfl, rfl⟩⟩⟩
  · intro r0 r b h
    exact proto.unmarshal_then_marshal _ _ lawful_CriticalSectionDef r0 r b h
  · intro r0 r b h
    exact proto.unmarshal_then_marshal _ _ lawful_CriticalSectionExecutionDef r0 r b h
  · intro m b n h
    exact proto.unmarshalLoop_bound _ n b.length m b h (le_refl _)
  · intro m b n h
    exact proto.unmarshalLoop_bound _ n b.length m b h (le_refl _)
  · intro r0 us hu
    exact proto.unmarshal_unknown_then_marshal _ _ lawful_CriticalSectionDef r0 us hu
  · intro r0 us hu
    exact proto.unmarshal_unknown_then_marshal _ _ lawful_CriticalSectionExecutionDef r0 us hu

/-- C6 (as stated, refuted): the field `Version` of `GraphDef` has no getter
in the method set of `*GraphDef`, and the access the code does offer, the
selector `m.Version`, panics on a nil record. -/
theorem GraphDef_Version_has_no_nil_safe_access :
    (∃ f ∈ GraphDef.fields, f.name = "Version" ∧ hasGetter GraphDef.methods f = false) ∧
    GraphDef.selVersion (none : Option (GraphDef Unit Unit Unit))
      = .error GoPanic.nilDereference :=
  ⟨by decide, rfl⟩

/-- C6 (amended): getters are declared exactly for `Node`, `Versions` and
`Library` of `GraphDef`, for `Attr` of `NodeDef`, for `CriticalSectionName`,
and for `ExecuteInCriticalSectionName` and `ExclusiveResourceAccess`; each of
them returns the zero value on a nil record.  `GraphDef.Version` and
`NodeDef.Name`, `Op`, `Input`, `Device` have no getter, and selecting them
through a nil record panics. -/
theorem nil_safe_access_exactly_for_getter_fields (V F A : Type) :
    ((GraphDef.fields.filter (hasGetter GraphDef.methods)).map (fun f => f.name)
        = ["Node", "Versions", "Library"] ∧
      (NodeDef.fields.filter (hasGetter NodeDef.methods)).map (fun f => f.name) = ["Attr"] ∧
      (CriticalSectionDef.fields.filter (hasGetter CriticalSectionDef.methods)).map
          (fun f => f.name) = ["CriticalSectionName"] ∧
      (CriticalSectionExecutionDef.fields.filter
          (hasGetter CriticalSectionExecutionDef.methods)).map (fun f => f.name)
        = ["ExecuteInCriticalSectionName", "ExclusiveResourceAccess"]) ∧
    (Call.ret (GraphDef.GetNode (none : Option (GraphDef V F A))) = .ok none ∧
      Call.ret (GraphDef.GetVersions (none : Option (GraphDef V F A))) = .ok none ∧
      Call.ret (GraphDef.GetLibrary (none : Option (GraphDef V F A))) = .ok none ∧
      Call.ret (NodeDef.GetAttr (none : Option (NodeDef A))) = .ok none ∧
      Call.ret (CriticalSectionDef.GetCriticalSectionName none) = .ok "" ∧
      Call.ret (CriticalSectionExecutionDef.GetExecuteInCriticalSectionName none) = .ok "" ∧
      Call.ret (CriticalSectionExecutionDef.GetExclusiveResourceAccess none) = .ok false) ∧
    (GraphDef.selVersion (none : Option (GraphDef V F A)) = .error .nilDereference ∧
      NodeDef.selName (none : Option (NodeDef A)) = .error .nilDereference ∧
      NodeDef.selOp (none : Option (NodeDef A)) = .error .nilDereference ∧
      NodeDef.selInput (none : Option (NodeDef A)) = .error .nilDereference ∧
      NodeDef.selDevice (none : Option (NodeDef A)) = .error .nilDereference) :=
  ⟨by decide, ⟨rfl, rfl, rfl, rfl, rfl, rfl, rfl⟩, ⟨rfl, rfl, rfl, rfl, rfl⟩⟩

/-- C7: in the schema declared by the struct tags of each record type every
field number is positive, no two fields share a field number, a schema name or
a Go name, and the names and numbers are: `GraphDef` node=1, versions=4,
version=3, library=2; `NodeDef` name=1, op=2, input=3, device=4, attr=5;
`CriticalSectionDef` critical_section_name=1; `CriticalSectionExecutionDef`
execute_in_critical_section_name=1, exclusive_resource_access=2. -/
theorem schema_field_numbers :
    ((schema GraphDef.fields).map (fun x => (x.2.OrigName, x.2.Tag))
        = [("node", 1), ("versions", 4), ("version", 3), ("library", 2)] ∧
      (schema NodeDef.fields).map (fun x => (x.2.OrigName, x.2.Tag))
        = [("name", 1), ("op", 2), ("input", 3), ("device", 4), ("attr", 5)] ∧
      (schema CriticalSectionDef.fields).map (fun x => (x.2.OrigName, x.2.Tag))
        = [("critical_section_name", 1)] ∧
      (schema CriticalSectionExecutionDef.fields).map (fun x => (x.2.OrigName, x.2.Tag))
        = [("execute_in_critical_section_name", 1), ("exclusive_resource_access", 2)]) ∧
    (∀ fs ∈ [GraphDef.fields, NodeDef.fields, CriticalSectionDef.fields,
        CriticalSectionExecutionDef.fields],
      (∀ x ∈ schema fs, 0 < x.2.Tag) ∧
      ((schema fs).map (fun x => x.2.Tag)).Nodup ∧
      ((schema fs).map (fun x => x.2.OrigName)).Nodup ∧
      ((schema fs).map (fun x => x.1.name)).Nodup ∧
      (schema fs).length = (fs.filter (fun f => (f.tagGet "protobuf").isSome)).length) := by
  decide

/-- C8: the only map-typed field of the four structs is `NodeDef.Attr`; its
tag declares a repeated field of wire type `bytes` with number 5, whose key
has wire type `bytes` and number 1 and whose value has wire type `bytes` and
number 2.  The only `bool` field is
`CriticalSectionExecutionDef.ExclusiveResourceAccess`, declared with wire type
`varint`. -/
theorem map_field_and_bool_field_declarations :
    ((GraphDef.fields.filter (fun f => f.type.isMap) = [] ∧
        CriticalSectionDef.fields.filter (fun f => f.type.isMap) = [] ∧
        CriticalSectionExecutionDef.fields.filter (fun f => f.type.isMap) = []) ∧
      (NodeDef.fields.filter (fun f => f.type.isMap)).map
          (fun f => (f.name, f.props "protobuf", f.props "protobuf_key", f.props "protobuf_val"))
        = [("Attr",
            some { Wire := "bytes", Tag := 5, Repeated := true, OrigName := "attr" },
            some { Wire := "bytes", Tag := 1, Optional := true, OrigName := "key" },
            some { Wire := "bytes", Tag := 2, Optional := true, OrigName := "value" })]) ∧
    ((GraphDef.fields.filter (fun f => f.type = .bool) = [] ∧
        NodeDef.fields.filter (fun f => f.type = .bool) = [] ∧
        CriticalSectionDef.fields.filter (fun f => f.type = .bool) = []) ∧
      (CriticalSectionExecutionDef.fields.filter (fun f => f.type = .bool)).map
          (fun f => (f.name, f.props "protobuf"))
        = [("ExclusiveResourceAccess",
            some { Wire := "varint", Tag := 2, Optional := true,
                   OrigName := "exclusive_resource_access",
                   JSONName := "exclusiveResourceAccess", proto3 := true })]) := by
  decide

/-- C9: for every receiver, nil included, `Descriptor` returns the descriptor
blob of the file and the index path of the message and leaves the receiver as
it was: `GraphDef` gives `(fileDescriptor4, [0])`, `NodeDef` gives
`(fileDescriptor4, [1])`, `CriticalSectionDef` gives
`(fileDescriptor_d30d8be90fd098b9, [0])` and `CriticalSectionExecutionDef`
gives `(fileDescriptor_d30d8be90fd098b9, [1])`.  The two types of a file
return the same blob and different index paths. -/
theorem descriptor_blob_and_index_path (V F A : Type) (g : Option (GraphDef V F A))
    (n : Option (NodeDef A)) (c : Option CriticalSectionDef)
    (e : Option CriticalSectionExecutionDef) :
    (GraphDef.Descriptor g = .ok ((fileDescriptor4, [0]), g) ∧
      NodeDef.Descriptor n = .ok ((fileDescriptor4, [1]), n) ∧
      CriticalSectionDef.Descriptor c = .ok ((fileDescriptor_d30d8be90fd098b9, [0]), c) ∧
      CriticalSectionExecutionDef.Descriptor e
        = .ok ((fileDescriptor_d30d8be90fd098b9, [1]), e)) ∧
    ((Call.ret (GraphDef.Descriptor g)).map Prod.fst
        = (Call.ret (NodeDef.Descriptor n)).map Prod.fst ∧
      (Call.ret (GraphDef.Descriptor g)).map Prod.snd
        ≠ (Call.ret (NodeDef.Descriptor n)).map Prod.snd) ∧
    ((Call.ret (CriticalSectionDef.Descriptor c)).map Prod.fst
        = (Call.ret (CriticalSectionExecutionDef.Descriptor e)).map Prod.fst ∧
      (Call.ret (CriticalSectionDef.Descriptor c)).map Prod.snd
        ≠ (Call.ret (CriticalSectionExecutionDef.Descriptor e)).map Prod.snd) := by
  refine ⟨⟨rfl, rfl, rfl, rfl⟩, ⟨rfl, ?_⟩, ⟨rfl, ?_⟩⟩
  · intro h
    have h2 : ([0] : List Int) = [1] := Except.ok.inj h
    exact absurd h2 (by decide)
  · intro h
    have h2 : ([0] : List Int) = [1] := Except.ok.inj h
    exact absurd h2 (by decide)

/-- C10: `fileDescriptor4` has exactly 358 bytes and
`fileDescriptor_d30d8be90fd098b9` exactly 260; each starts with the gzip magic
bytes 0x1f 0x8b and the deflate method byte 0x08; every element is a byte. -/
theorem descriptor_blob_sizes_and_gzip_header :
    (fileDescriptor4.length = 358 ∧
      fileDescriptor_d30d8be90fd098b9.length = 260) ∧
    (fileDescriptor4.take 3 = [0x1f, 0x8b, 0x08] ∧
      fileDescriptor_d30d8be90fd098b9.take 3 = [0x1f, 0x8b, 0x08]) ∧
    ((∀ b ∈ fileDescriptor4, b < 256) ∧
      (∀ b ∈ fileDescriptor_d30d8be90fd098b9, b < 256)) := by
  decide
